import Mathlib

/-!
# Verification of the pomodoro timer core (src/js/main.js)

A shallow embedding of the timer / session-lifecycle logic of
`src/js/main.js`.  Wall-clock instants (JavaScript `Date.now()` values and
the `Date` objects built from ISO strings) are modelled as integers counting
milliseconds; the DOM is reduced to the two input values the logic reads
(`goalInput.value` and `durationSelect.value`) and the state the script
keeps in module-level variables.  External collaborators (Tone.js, the
Notification API, localStorage) are modelled by the availability flags the
code itself tests, and the calls the code makes to them are recorded in an
event trace so that ordering and multiplicity of side effects can be
stated.
-/

/-- JavaScript `Math.round(x / 1000)` for an integer count `x` of
milliseconds: round to nearest, halves toward positive infinity
(`Math.round(y) = ⌊y + 1/2⌋`). -/
def jsRound1000 (x : Int) : Int := (x + 500).fdiv 1000

/-- One element of a session's `pauses` array (main.js lines 257-260):
`{pauseTime, resumeTime}` with `resumeTime` possibly `null`. -/
structure PauseEntry where
  pauseTime : Int
  resumeTime : Option Int
  deriving DecidableEq

/-- A session record as built at main.js lines 235-239: `goal`,
`startTime`, `endTime` (null until finalization), `duration` (seconds) and
the ordered `pauses` array. -/
structure Session where
  goal : String
  startTime : Int
  endTime : Option Int
  duration : Int
  pauses : List PauseEntry
  deriving DecidableEq

/-- The module-level mutable state of main.js (lines 15-23) plus the two
input values the logic reads.  `timeoutScheduled` records whether the
`setTimeout(onTimerEnd, ...)` completion callback is pending (`timeoutId`
being live); `durationSelect` is `parseInt(durationSelect.value)`, in
minutes. -/
structure AppState where
  targetTime : Int
  timeLeft : Int
  isRunning : Bool
  timeoutScheduled : Bool
  duration : Int
  currentSession : Option Session
  sessions : List Session
  goalInput : String
  durationSelect : Int
  deriving DecidableEq

/-- Availability of the external collaborators, exactly the conditions the
code tests: `typeof Tone !== 'undefined'`, `'Notification' in window`,
`Notification.permission === 'granted'`, and `isLocalStorageAvailable()`. -/
structure Collaborators where
  toneAvailable : Bool
  notificationSupported : Bool
  notificationGranted : Bool
  storageAvailable : Bool
  deriving DecidableEq

/-- Observable side effects, recorded in order of occurrence. -/
inductive Ev where
  | soundInvoked
  | soundStarted
  | alertInvoked
  | notificationShown
  | modalShown
  | recordAppended
  | storeSaved
  deriving DecidableEq

/-- `playSound` (main.js lines 125-144): always invoked; returns without
starting sound when `typeof Tone === 'undefined'`. -/
def playSound (c : Collaborators) : List Ev :=
  Ev.soundInvoked :: (if c.toneAvailable then [Ev.soundStarted] else [])

/-- `showSystemNotification` (main.js lines 113-120): always invoked; shows
a notification only when the API exists and permission is granted. -/
def showSystemNotification (c : Collaborators) : List Ev :=
  Ev.alertInvoked ::
    (if c.notificationSupported && c.notificationGranted then [Ev.notificationShown] else [])

/-- `saveSessions` (main.js lines 59-63): writes to localStorage only when
it is available; the in-memory state is untouched either way. -/
def saveSessions (c : Collaborators) : List Ev :=
  if c.storageAvailable then [Ev.storeSaved] else []

/-- The `totalPauseTime` accumulation of main.js lines 308-313: a fold over
the pauses, adding `resumeTime - pauseTime` for each pause that has a
`resumeTime`. -/
def totalPauseTime (pauses : List PauseEntry) : Int :=
  pauses.foldl
    (fun acc p =>
      match p.resumeTime with
      | some r => acc + (r - p.pauseTime)
      | none => acc)
    0

/-- Finalization of the current record (main.js lines 306-315): set
`endTime = now` and
`duration = Math.round(((endTime - startTime) - totalPauseTime) / 1000)`. -/
def finalizeSession (now : Int) (cs : Session) : Session :=
  { cs with
    endTime := some now
    duration := jsRound1000 ((now - cs.startTime) - totalPauseTime cs.pauses) }

/-- `resetTimer` (main.js lines 267-283): stop running, cancel the pending
completion callback and display loop, re-read the selected duration, clear
the goal input and drop the current record. `targetTime` and `sessions`
are not touched. -/
def resetTimer (s : AppState) : AppState :=
  { s with
    isRunning := false
    timeoutScheduled := false
    duration := s.durationSelect * 60
    timeLeft := s.durationSelect * 60
    goalInput := ""
    currentSession := none }

/-- `endSession(isFinished)` (main.js lines 300-326).  Guarded by
`if (currentSession && !currentSession.endTime)`: only an existing,
not-yet-finalized record is finalized, unshifted onto `sessions` and
saved; then `resetTimer()` runs unconditionally.  The `isFinished`
argument only re-enables the goal input element, which is presentation
state not modelled here. -/
def endSession (c : Collaborators) (isFinished : Bool) (now : Int) (s : AppState) :
    AppState × List Ev :=
  let s1 : AppState := { s with isRunning := false, timeoutScheduled := false }
  match s1.currentSession with
  | some cs =>
      if cs.endTime = none then
        let fin := finalizeSession now cs
        let s2 : AppState := { s1 with currentSession := some fin, sessions := fin :: s1.sessions }
        (resetTimer s2, Ev.recordAppended :: saveSessions c)
      else
        (resetTimer s1, [])
  | none => (resetTimer s1, [])

/-- `onTimerEnd` (main.js lines 162-167), the completion callback: play the
sound, show the system notification, show the in-page modal, then
`endSession(true)`. -/
def onTimerEnd (c : Collaborators) (now : Int) (s : AppState) : AppState × List Ev :=
  let r := endSession c true now s
  (r.1, playSound c ++ showSystemNotification c ++ [Ev.modalShown] ++ r.2)

/-- `updateDisplayLoop` (main.js lines 175-188), one reconciliation tick:
when running, recompute `newTimeLeft = Math.round((targetTime - now) / 1000)`
and, if it differs from the displayed value, clamp it at 0 and store it. -/
def updateDisplayLoop (now : Int) (s : AppState) : AppState :=
  if s.isRunning = false then s
  else
    let newTimeLeft := jsRound1000 (s.targetTime - now)
    if newTimeLeft ≠ s.timeLeft then
      { s with timeLeft := if newTimeLeft > 0 then newTimeLeft else 0 }
    else s

/-- Closing the open pause entry on resume (main.js lines 240-245): if the
pauses array is non-empty and its last entry has no `resumeTime`, set that
entry's `resumeTime = now`; otherwise leave the array unchanged. -/
def closeLastPause (now : Int) (pauses : List PauseEntry) : List PauseEntry :=
  match pauses.getLast? with
  | some lastPause =>
      if lastPause.resumeTime = none then
        pauses.dropLast ++ [{ lastPause with resumeTime := some now }]
      else pauses
  | none => pauses

/-- The pause branch of `startTimer` (main.js lines 247-261): stop running,
cancel the pending completion callback and display loop, and push
`{pauseTime: now, resumeTime: null}` onto the current record's pauses.
(The JS dereferences `currentSession` unconditionally here; the branch is
only reachable while running, when a record always exists, so the `none`
case below is dead.) -/
def pauseTimer (now : Int) (s : AppState) : AppState :=
  { s with
    isRunning := false
    timeoutScheduled := false
    currentSession := s.currentSession.map (fun cs =>
      { cs with pauses := cs.pauses ++ [{ pauseTime := now, resumeTime := none }] }) }

/-- The start guard `!goalInput.value.trim()` (main.js line 209): true iff
the goal input trims to the empty string, i.e. every character is
whitespace. -/
def isBlank (g : String) : Bool := g.data.all Char.isWhitespace

/-- `startTimer` (main.js lines 202-262).  Not running: reject an
empty/whitespace goal (the JS only flashes a validation style on the input,
touching no modelled state); otherwise start running, set
`targetTime = now + timeLeft * 1000`, schedule the completion callback,
and either create the record (first start) or close an open pause entry
(resume).  Running: the pause branch. -/
def startTimer (now : Int) (s : AppState) : AppState :=
  if s.isRunning = false then
    if isBlank s.goalInput then s
    else
      let s1 : AppState :=
        { s with
          isRunning := true
          targetTime := now + s.timeLeft * 1000
          timeoutScheduled := true }
      match s1.currentSession with
      | none =>
          { s1 with
            currentSession := some
              { goal := s1.goalInput, startTime := now, endTime := none,
                duration := 0, pauses := [] } }
      | some cs =>
          { s1 with currentSession := some { cs with pauses := closeLastPause now cs.pauses } }
  else
    pauseTimer now s

/-- A pause request as the user can issue one: the pause branch of
`startTimer` runs exactly when `isRunning` is true (the dispatch at
main.js line 207); while idle the pause code is unreachable and nothing
of the pause transition happens. -/
def requestPause (now : Int) (s : AppState) : AppState :=
  if s.isRunning then pauseTimer now s else s

/-- `changeDuration` (main.js lines 288-294): guarded only by
`!isRunning`; re-reads the selected duration into `duration` and
`timeLeft`. -/
def changeDuration (s : AppState) : AppState :=
  if s.isRunning = false then
    { s with duration := s.durationSelect * 60, timeLeft := s.durationSelect * 60 }
  else s

/-- The reset button click listener (main.js lines 379-382):
`if (currentSession) endSession(); resetTimer();`. -/
def resetBtnClick (c : Collaborators) (now : Int) (s : AppState) : AppState × List Ev :=
  match s.currentSession with
  | some _ =>
      let r := endSession c false now s
      (resetTimer r.1, r.2)
  | none => (resetTimer s, [])

/-- `deleteSession` (main.js lines 359-364): `sessions.splice(index, 1)`,
removing one element at `index` (for an in-range index; `splice` removes
nothing when `index ≥ length`, as does this model). -/
def deleteSession (index : Nat) (s : AppState) : AppState :=
  { s with sessions := s.sessions.take index ++ s.sessions.drop (index + 1) }

/-! ## Helper lemmas and concrete states -/

/-- The fold of `totalPauseTime` with an arbitrary accumulator equals the
accumulator plus the sum of the per-pause contributions (a pause without a
`resumeTime` contributing zero). -/
theorem totalPauseTime_foldl (a : Int) (ps : List PauseEntry) :
    ps.foldl
      (fun acc p =>
        match p.resumeTime with
        | some r => acc + (r - p.pauseTime)
        | none => acc)
      a
    = a + (ps.map (fun p =>
        match p.resumeTime with
        | some r => r - p.pauseTime
        | none => 0)).sum := by
  induction ps generalizing a with
  | nil => simp
  | cons p ps ih =>
      cases hp : p.resumeTime with
      | none => simp [List.foldl_cons, hp, ih]
      | some r => simp [List.foldl_cons, hp, ih]; ring

/-- `totalPauseTime` is the sum over the pauses of `resumeTime − pauseTime`,
with pauses lacking a `resumeTime` contributing zero. -/
theorem totalPauseTime_eq_sum (ps : List PauseEntry) :
    totalPauseTime ps
      = (ps.map (fun p =>
          match p.resumeTime with
          | some r => r - p.pauseTime
          | none => 0)).sum := by
  simpa using totalPauseTime_foldl 0 ps

/-- All four collaborators available. -/
def cAll : Collaborators := ⟨true, true, true, true⟩

/-- A session record in flight: started at t=0ms, one completed pause. -/
def csRun : Session :=
  { goal := "write", startTime := 0, endTime := none, duration := 0,
    pauses := [⟨100000, some 160000⟩] }

/-- A running state holding `csRun`, 1200 s left on the clock. -/
def runState : AppState :=
  { targetTime := 1500000, timeLeft := 1200, isRunning := true,
    timeoutScheduled := true, duration := 1500, currentSession := some csRun,
    sessions := [], goalInput := "write", durationSelect := 25 }

/-- A paused state: an active record with an open pause, engine not
running, 300 s frozen on the clock, 25-minute selection. -/
def pausedState : AppState :=
  { targetTime := 1500000, timeLeft := 300, isRunning := false,
    timeoutScheduled := false, duration := 1500,
    currentSession := some
      { goal := "write", startTime := 0, endTime := none, duration := 0,
        pauses := [⟨1200000, none⟩] },
    sessions := [], goalInput := "write", durationSelect := 25 }

/-- An idle state with no active record, duration and clock agreeing with
the 25-minute selection, a goal typed but no session started. -/
def idleState : AppState :=
  { targetTime := 0, timeLeft := 1500, isRunning := false,
    timeoutScheduled := false, duration := 1500, currentSession := none,
    sessions := [], goalInput := "read", durationSelect := 25 }

/-- An idle state whose goal input is whitespace only. -/
def idleBlankGoal : AppState :=
  { targetTime := 0, timeLeft := 1500, isRunning := false,
    timeoutScheduled := false, duration := 1500, currentSession := none,
    sessions := [], goalInput := "  ", durationSelect := 25 }

/-! ## Claims -/

/-- **C1** At-most-once finalization: from a state holding an active,
not-yet-finalized record, one `endSession` appends exactly the finalized
record to the store; a second `endSession`, or `onTimerEnd` (the expiry
callback) firing after the manual end, leaves the store unchanged — in
particular the already-finalized record at the head keeps its `endTime`,
`duration` and `pauses`. -/
theorem endSession_at_most_once (c c' : Collaborators) (s : AppState) (t1 t2 : Int)
    (cs : Session) (h : s.currentSession = some cs) (he : cs.endTime = none) :
    ((endSession c false t1 s).1).sessions = finalizeSession t1 cs :: s.sessions ∧
    ((endSession c' false t2 (endSession c false t1 s).1).1).sessions
      = finalizeSession t1 cs :: s.sessions ∧
    ((onTimerEnd c' t2 (endSession c false t1 s).1).1).sessions
      = finalizeSession t1 cs :: s.sessions := by
  refine ⟨?_, ?_, ?_⟩ <;>
    simp [endSession, onTimerEnd, resetTimer, h, he]

/-- **C1 witness**: the finalization theorem applied at the concrete
running state. -/
theorem endSession_at_most_once_witness :
    runState.currentSession = some csRun ∧ csRun.endTime = none ∧
    ((endSession cAll false 1700000 runState).1).sessions
      = finalizeSession 1700000 csRun :: runState.sessions :=
  ⟨rfl, rfl, (endSession_at_most_once cAll cAll runState 1700000 1800000 csRun rfl rfl).1⟩

/-- **C2** Net-duration invariant: the record finalized by `endSession`
(found at the head of the store) carries `endTime = now` and
`duration = round(((endTime − startTime) − Σ(resumeTime_i − pauseTime_i)) / 1000)`
seconds, where the sum ranges over the pauses and a pause lacking a
`resumeTime` contributes zero. -/
theorem endSession_duration_formula (c : Collaborators) (s : AppState) (now : Int)
    (cs : Session) (h : s.currentSession = some cs) (he : cs.endTime = none) :
    ((endSession c false now s).1).sessions.head?
      = some { cs with
          endTime := some now
          duration := jsRound1000 ((now - cs.startTime) -
            (cs.pauses.map (fun p =>
              match p.resumeTime with
              | some r => r - p.pauseTime
              | none => 0)).sum) } := by
  simp [endSession, resetTimer, finalizeSession, h, he, totalPauseTime_eq_sum]

/-- **C2 witness**: the duration formula at the concrete running state
(1700 s elapsed, one 60 s completed pause, so 1640 s net). -/
theorem endSession_duration_formula_witness :
    runState.currentSession = some csRun ∧ csRun.endTime = none ∧
    ((endSession cAll false 1700000 runState).1).sessions.head?
      = some { csRun with
          endTime := some (1700000 : Int)
          duration := jsRound1000 ((1700000 - csRun.startTime) -
            (csRun.pauses.map (fun p =>
              match p.resumeTime with
              | some r => r - p.pauseTime
              | none => 0)).sum) } :=
  ⟨rfl, rfl, endSession_duration_formula cAll runState 1700000 csRun rfl rfl⟩

/-- **C3** Deadline reconciliation invariant: starting from idle (with a
non-blank goal) sets `targetTime` to the start instant plus
`timeLeft` seconds and turns the engine on; and in any running state a
reconciliation tick leaves `timeLeft = max 0 (round((targetTime − now)/1000))`
— the new value is recomputed from the absolute deadline, not obtained by
decrementing the old counter. -/
theorem running_deadline_reconciliation (s : AppState) (now : Int)
    (h0 : 0 ≤ s.timeLeft) :
    (s.isRunning = false → isBlank s.goalInput = false →
      (startTimer now s).targetTime = now + s.timeLeft * 1000 ∧
      (startTimer now s).isRunning = true) ∧
    (s.isRunning = true →
      (updateDisplayLoop now s).timeLeft
        = max 0 (jsRound1000 (s.targetTime - now))) := by
  constructor
  · intro h hg
    cases hcs : s.currentSession <;> simp [startTimer, h, hg, hcs]
  · intro h
    by_cases hh : jsRound1000 (s.targetTime - now) = s.timeLeft
    · simp only [updateDisplayLoop, h]
      simp [hh, max_def]
      omega
    · simp only [updateDisplayLoop, h]
      simp [hh, max_def]
      split <;> split <;> omega

/-- **C3 witness**: a tick of the concrete running state at t = 1,400,300 ms
(deadline 1,500,000 ms) reconciles the display to 100 s. -/
theorem running_deadline_reconciliation_witness :
    (0 : Int) ≤ runState.timeLeft ∧
    (updateDisplayLoop 1400300 runState).timeLeft
      = max 0 (jsRound1000 (runState.targetTime - 1400300)) :=
  ⟨by decide, (running_deadline_reconciliation runState 1400300 (by decide)).2 rfl⟩

/-- **C4** Expiry side effects: on the expiry callback, the sound and the
user-visible alert are each invoked exactly once and strictly before the
record is appended, and the record is finalized and appended for every
combination of collaborator availability — no modelled failure of the
sound, the notifier or the store prevents finalization. -/
theorem onTimerEnd_notifies_then_finalizes (c : Collaborators) (now : Int)
    (s : AppState) (cs : Session) (h : s.currentSession = some cs)
    (he : cs.endTime = none) :
    ((onTimerEnd c now s).1).sessions = finalizeSession now cs :: s.sessions ∧
    ((onTimerEnd c now s).2).count Ev.soundInvoked = 1 ∧
    ((onTimerEnd c now s).2).count Ev.alertInvoked = 1 ∧
    ((onTimerEnd c now s).2).count Ev.recordAppended = 1 ∧
    ((onTimerEnd c now s).2).indexOf Ev.soundInvoked
      < ((onTimerEnd c now s).2).indexOf Ev.recordAppended ∧
    ((onTimerEnd c now s).2).indexOf Ev.alertInvoked
      < ((onTimerEnd c now s).2).indexOf Ev.recordAppended := by
  obtain ⟨t, ns, ng, st⟩ := c
  refine ⟨by simp [onTimerEnd, endSession, resetTimer, h, he], ?_, ?_, ?_, ?_, ?_⟩ <;>
    cases t <;> cases ns <;> cases ng <;> cases st <;>
      simp [onTimerEnd, endSession, playSound, showSystemNotification, saveSessions,
        h, he]

/-- **C4 witness**: the expiry theorem at the concrete running state with
every collaborator available. -/
theorem onTimerEnd_notifies_then_finalizes_witness :
    runState.currentSession = some csRun ∧ csRun.endTime = none ∧
    ((onTimerEnd cAll 1500000 runState).1).sessions
      = finalizeSession 1500000 csRun :: runState.sessions :=
  ⟨rfl, rfl, (onTimerEnd_notifies_then_finalizes cAll 1500000 runState csRun rfl rfl).1⟩

/-- **C5 counterexample**: in a paused state with an active record (engine
not running), `changeDuration` is not a no-op — it overwrites the frozen
`timeLeft` (300 s) with the selected duration (1500 s), contradicting the
claim that it is a no-op in any state other than idle-with-no-record. -/
theorem changeDuration_paused_counterexample :
    pausedState.isRunning = false ∧
    pausedState.currentSession ≠ none ∧
    (changeDuration pausedState).timeLeft ≠ pausedState.timeLeft := by
  refine ⟨rfl, ?_, ?_⟩ <;> decide

/-- **C5 amended**: `changeDuration`'s only guard is `!isRunning`.  While
the engine is not running — idle or paused, with or without an active
record — it overwrites `duration` and `timeLeft` with the selected
duration, leaving the record and the store untouched; only while running
is it a no-op. -/
theorem changeDuration_guard_only_running (s : AppState)
    (h : s.isRunning = false) :
    (changeDuration s).timeLeft = s.durationSelect * 60 ∧
    (changeDuration s).duration = s.durationSelect * 60 ∧
    (changeDuration s).currentSession = s.currentSession ∧
    (changeDuration s).sessions = s.sessions ∧
    (changeDuration s).isRunning = false := by
  simp [changeDuration, h]

/-- **C5 witness**: the amended guard theorem applied at the concrete
paused state. -/
theorem changeDuration_guard_only_running_witness :
    pausedState.isRunning = false ∧
    (changeDuration pausedState).timeLeft = pausedState.durationSelect * 60 :=
  ⟨rfl, (changeDuration_guard_only_running pausedState rfl).1⟩

/-- **C6** Pause/resume round-trip: pausing a running session (the start
button while running) freezes `timeLeft` and appends exactly one open
pause entry; resuming (the start button again, goal still non-blank)
leaves `timeLeft` at the frozen value and closes that same entry by
filling its `resumeTime`, appending no further entry. -/
theorem pause_resume_round_trip (s : AppState) (t1 t2 : Int) (cs : Session)
    (hrun : s.isRunning = true) (h : s.currentSession = some cs)
    (hg : isBlank s.goalInput = false) :
    (startTimer t1 s).isRunning = false ∧
    (startTimer t1 s).timeLeft = s.timeLeft ∧
    (startTimer t1 s).currentSession
      = some { cs with pauses := cs.pauses ++ [⟨t1, none⟩] } ∧
    (startTimer t2 (startTimer t1 s)).isRunning = true ∧
    (startTimer t2 (startTimer t1 s)).timeLeft = s.timeLeft ∧
    (startTimer t2 (startTimer t1 s)).currentSession
      = some { cs with pauses := cs.pauses ++ [⟨t1, some t2⟩] } := by
  have h1 : startTimer t1 s = pauseTimer t1 s := by simp [startTimer, hrun]
  have h2 : pauseTimer t1 s
      = { s with
          isRunning := false
          timeoutScheduled := false
          currentSession := some { cs with pauses := cs.pauses ++ [⟨t1, none⟩] } } := by
    simp [pauseTimer, h]
  rw [h1, h2]
  refine ⟨rfl, rfl, rfl, ?_, ?_, ?_⟩ <;>
    simp [startTimer, hg, closeLastPause, List.getLast?_concat, List.dropLast_concat]

/-- **C6 witness**: the round-trip at the concrete running state, pausing
at t = 1,300,000 ms and resuming at t = 1,350,000 ms. -/
theorem pause_resume_round_trip_witness :
    runState.isRunning = true ∧ runState.currentSession = some csRun ∧
    isBlank runState.goalInput = false ∧
    (startTimer 1350000 (startTimer 1300000 runState)).timeLeft = runState.timeLeft ∧
    (startTimer 1350000 (startTimer 1300000 runState)).currentSession
      = some { csRun with pauses := csRun.pauses ++ [⟨1300000, some 1350000⟩] } := by
  have hg : isBlank runState.goalInput = false := by decide
  have r := pause_resume_round_trip runState 1300000 1350000 csRun rfl rfl hg
  exact ⟨rfl, rfl, hg, r.2.2.2.2.1, r.2.2.2.2.2⟩

/-- **C7** Start with a blank goal: from a non-running state, `startTimer`
with an empty or whitespace-only goal input changes nothing in the
modelled state (the JS only flashes a validation style on the input):
the engine stays idle, `timeLeft` and `targetTime` keep their values, no
record is created and no completion callback is scheduled. -/
theorem startTimer_blank_goal_noop (s : AppState) (now : Int)
    (h : s.isRunning = false) (hg : isBlank s.goalInput = true) :
    startTimer now s = s := by
  simp [startTimer, h, hg]

/-- **C7 witness**: the no-op theorem at the concrete idle state whose goal
input is whitespace only. -/
theorem startTimer_blank_goal_noop_witness :
    idleBlankGoal.isRunning = false ∧ isBlank idleBlankGoal.goalInput = true ∧
    startTimer 777 idleBlankGoal = idleBlankGoal :=
  ⟨rfl, by decide, startTimer_blank_goal_noop idleBlankGoal 777 rfl (by decide)⟩

/-- **C8** No-session no-ops: while idle with no active record (so, by the
code's own invariant for such states, `timeLeft = duration =
durationSelect * 60`), a pause request does nothing — the pause branch of
`startTimer` is unreachable with `isRunning` false — and `endSession`
appends no record and leaves the engine idle with `timeLeft`, `duration`,
`targetTime` and the store unchanged, raising no error from any state. -/
theorem idle_pause_end_noop (c : Collaborators) (s : AppState) (tp te : Int)
    (hns : s.currentSession = none) (hidle : s.isRunning = false)
    (htl : s.timeLeft = s.durationSelect * 60)
    (hd : s.duration = s.durationSelect * 60) :
    requestPause tp s = s ∧
    ((endSession c false te s).1).sessions = s.sessions ∧
    ((endSession c false te s).2).count Ev.recordAppended = 0 ∧
    ((endSession c false te s).1).isRunning = false ∧
    ((endSession c false te s).1).timeLeft = s.timeLeft ∧
    ((endSession c false te s).1).duration = s.duration ∧
    ((endSession c false te s).1).targetTime = s.targetTime ∧
    ((endSession c false te s).1).currentSession = none := by
  refine ⟨?_, ?_, ?_, ?_, ?_, ?_, ?_, ?_⟩ <;>
    simp [requestPause, hidle, endSession, hns, resetTimer, htl, hd]

/-- **C8 witness**: the no-op theorem at the concrete idle state. -/
theorem idle_pause_end_noop_witness :
    idleState.currentSession = none ∧ idleState.isRunning = false ∧
    idleState.timeLeft = idleState.durationSelect * 60 ∧
    idleState.duration = idleState.durationSelect * 60 ∧
    requestPause 5000 idleState = idleState :=
  ⟨rfl, rfl, by decide, by decide,
    (idle_pause_end_noop cAll idleState 5000 6000 rfl rfl (by decide) (by decide)).1⟩

/-- **C9** Reset with an active record: the reset button handler first
finalizes the active record — its `endTime` is set to the click instant
and its `duration` computed from it — and appends it to the store, and
only then resets: afterwards no record is active, the engine is idle, the
clock shows the selected duration and the goal input is cleared. -/
theorem resetBtn_finalizes_then_resets (c : Collaborators) (s : AppState)
    (now : Int) (cs : Session) (h : s.currentSession = some cs)
    (he : cs.endTime = none) :
    ((resetBtnClick c now s).1).sessions = finalizeSession now cs :: s.sessions ∧
    (finalizeSession now cs).endTime = some now ∧
    (finalizeSession now cs).duration
      = jsRound1000 ((now - cs.startTime) - totalPauseTime cs.pauses) ∧
    ((resetBtnClick c now s).1).currentSession = none ∧
    ((resetBtnClick c now s).1).isRunning = false ∧
    ((resetBtnClick c now s).1).timeLeft = s.durationSelect * 60 ∧
    ((resetBtnClick c now s).1).goalInput = "" := by
  refine ⟨?_, rfl, rfl, ?_, ?_, ?_, ?_⟩ <;>
    simp [resetBtnClick, endSession, resetTimer, h, he]

/-- **C9 witness**: the reset-button theorem at the concrete running
state. -/
theorem resetBtn_finalizes_then_resets_witness :
    runState.currentSession = some csRun ∧ csRun.endTime = none ∧
    ((resetBtnClick cAll 1600000 runState).1).sessions
      = finalizeSession 1600000 csRun :: runState.sessions :=
  ⟨rfl, rfl, (resetBtn_finalizes_then_resets cAll runState 1600000 csRun rfl rfl).1⟩

/-- **C10** `deleteSession` removes exactly the record at the given
in-range index: the list shrinks by one, records before the index are
untouched, records after it shift down by one, and the result is a
sublist of the original (relative order preserved). -/
theorem deleteSession_removes_exactly_index (s : AppState) (i : Nat)
    (hi : i < s.sessions.length) :
    (deleteSession i s).sessions.length = s.sessions.length - 1 ∧
    (∀ j, j < i → (deleteSession i s).sessions[j]? = s.sessions[j]?) ∧
    (∀ j, i ≤ j → (deleteSession i s).sessions[j]? = s.sessions[j + 1]?) ∧
    List.Sublist (deleteSession i s).sessions s.sessions := by
  refine ⟨?_, ?_, ?_, ?_⟩
  · simp only [deleteSession, List.length_append, List.length_take, List.length_drop]
    omega
  · intro j hj
    have hlt : j < (s.sessions.take i).length := by
      simp only [List.length_take]
      omega
    simp only [deleteSession]
    rw [List.getElem?_append_left hlt, List.getElem?_take_of_lt hj]
  · intro j hj
    have hle : (s.sessions.take i).length ≤ j := by
      simp only [List.length_take]
      omega
    simp only [deleteSession]
    rw [List.getElem?_append_right hle, List.getElem?_drop]
    congr 1
    simp only [List.length_take]
    omega
  · have hsub : List.Sublist (s.sessions.drop (i + 1)) (s.sessions.drop i) := by
      rw [← List.tail_drop]
      exact List.tail_sublist _
    have h2 := List.Sublist.append_left hsub (s.sessions.take i)
    rw [List.take_append_drop] at h2
    exact h2

/-- Three finalized records in the store, for the deletion witness. -/
def logState : AppState :=
  { idleState with
    sessions :=
      [{ goal := "a", startTime := 0, endTime := some 60000, duration := 60, pauses := [] },
       { goal := "b", startTime := 0, endTime := some 120000, duration := 120, pauses := [] },
       { goal := "c", startTime := 0, endTime := some 180000, duration := 180, pauses := [] }] }

/-- **C10 witness**: deleting index 1 of a three-record store leaves two
records. -/
theorem deleteSession_removes_exactly_index_witness :
    1 < logState.sessions.length ∧
    (deleteSession 1 logState).sessions.length = logState.sessions.length - 1 :=
  ⟨by decide, (deleteSession_removes_exactly_index logState 1 (by decide)).1⟩
